/-
Verification of the gsb (game-server-base) line-dispatch engine.

This file gives a shallow embedding, in Lean 4, of the core of the gsb
package: the command registry and dispatch loop (src/gsb/parser.py), the
connection dispatcher-swap protocol (src/gsb/protocol.py), and the
interactive override flows Intercept, Menu, Reader and YesOrNo
(src/gsb/intercept.py).  Observable side effects (lines notified to the
connection, hook invocations, dispatcher reassignment) are modelled as
event traces; handlers and hooks configured by library users are modelled
as functions stored in the data structures, with their outcomes described
by small inductive result types.  Machine-level concerns (Twisted
transport, encodings, logging text) are outside the embedded core, exactly
as they are outside the dispatch algorithm in the source.
-/
import Mathlib

/-- Embeds gsb.caller.Caller: the per-line request context.  The source
also carries a connection back-reference and a regex match object; the
connection is implicit in the event-trace model and the match object is
represented by its groups and groupdict (the only parts the engine reads).
The text field models caller.text for the dispatch path, where it is
always a string. -/
structure Caller where
  text : String
  command : String
  args_str : String
  args : List String
  kwargs : List (String × String)
  exception : Option String
deriving DecidableEq

/-- Builds the Caller exactly as Parser.handle_line does before the
pre_command hook runs: only the text is populated (parser.py line 232). -/
def mkCaller (text : String) : Caller :=
  { text := text, command := "", args_str := "", args := [], kwargs := []
    exception := none }

/-- Outcome of invoking a command handler.  The source distinguishes a
clean return, a DontStopException (caller.dont_stop), and any other
exception; the latter carries a description of the exception object. -/
inductive HandlerResult where
  | ok : HandlerResult
  | dontStop : HandlerResult
  | raised : String → HandlerResult
deriving DecidableEq

/-- Embeds gsb.command.Command.  The id field models Python object
identity (each registered Command is a distinct object); allowed models
the permission predicate read by ok_for; args_regexp models the compiled
pattern, as a function from the argument string to an optional pair of
(groups, groupdict); func models the handler.  ok_for in the source also
treats allowed=None as permission granted; an always-true function
represents that case. -/
structure Command where
  id : Nat
  allowed : Caller → Bool
  args_regexp : Option (String → Option (List String × List (String × String)))
  func : Caller → HandlerResult

/-- Observable events produced by one run of Parser.handle_line:
ran k      - the handler of the Command with id k was invoked
            (parser.py line 254);
explain k  - the usage explanation of the Command with id k was sent to
            the connection (parser.py lines 247-248, Parser.explain);
error_hook k e - the handler of Command k raised e; the exception was
            caught, logged, stored in caller.exception, and
            Parser.on_error was invoked (parser.py lines 258-262);
huh        - the unrecognized-command hook Parser.huh was invoked
            (parser.py lines 263-265). -/
inductive DEvent where
  | ran : Nat → DEvent
  | explain : Nat → DEvent
  | error_hook : Nat → String → DEvent
  | huh : DEvent
deriving DecidableEq

/-- Embeds the for-loop of Parser.handle_line (parser.py lines 239-262).
Returns (events, matched-count, broke), where broke records whether the
loop ended through a break statement (which suppresses the for-else
clause).  The Caller is threaded through the recursion because the source
mutates one shared Caller object (args, kwargs, exception) as the loop
advances.  Note the translation of the exception arm: after on_error is
invoked the Python loop body simply ends and iteration continues with the
next Command - there is no break there (parser.py lines 258-262). -/
def handleLoop : List Command → Caller → Nat → List DEvent × Nat × Bool
  | [], _, n => ([], n, false)
  | c :: rest, caller, n =>
    if c.allowed caller then
      let m : Option Caller :=
        match c.args_regexp with
        | none => some { caller with args := [], kwargs := [] }
        | some pat =>
          match pat caller.args_str with
          | none => none
          | some g => some { caller with args := g.1, kwargs := g.2 }
      match m with
      | none => ([DEvent.explain c.id], n, true)
      | some caller1 =>
        match c.func caller1 with
        | HandlerResult.ok => ([DEvent.ran c.id], n + 1, true)
        | HandlerResult.dontStop =>
          let out := handleLoop rest caller1 (n + 1)
          (DEvent.ran c.id :: out.1, out.2.1, out.2.2)
        | HandlerResult.raised e =>
          let out := handleLoop rest { caller1 with exception := some e } (n + 1)
          (DEvent.ran c.id :: DEvent.error_hook c.id e :: out.1, out.2.1, out.2.2)
    else handleLoop rest caller n

/-- Embeds gsb.parser.Parser: the command registry.  The commands dict is
an association list from name to the ordered overload bucket; the
substitution dict maps one-character strings to full command names (a key
longer than one character can never match line[0], the same as in the
source).  pre_command models the overridable pre-dispatch hook, whose
default returns true. -/
structure Parser where
  command_separator : String
  commands : List (String × List Command)
  command_substitutions : List (String × String)
  pre_command : Caller → Bool

/-- Embeds the substitution rewrite at the top of handle_line (parser.py
lines 228-231): when the line is non-empty and its first character is a
key of the substitution table, the line is rewritten to
full-name ++ separator ++ rest. -/
def pySubstitute (subs : List (String × String)) (sep : String) (line : String) : String :=
  match line.data with
  | [] => line
  | c :: rest =>
    match List.lookup (String.singleton c) subs with
    | some full => full ++ sep ++ String.mk rest
    | none => line

/-- Helper for Parser.split: finds the first occurrence of the separator
character sequence and splits there, like Python str.split(sep, 1).
Returns none when the separator does not occur. -/
def splitOnceAux (sep : List Char) : List Char → Option (List Char × List Char)
  | [] => none
  | c :: cs =>
    if List.isPrefixOf sep (c :: cs) then some ([], (c :: cs).drop sep.length)
    else
      match splitOnceAux sep cs with
      | some pr => some (c :: pr.1, pr.2)
      | none => none

/-- Embeds Parser.split (parser.py lines 189-195): split on the first
occurrence of the separator; when the separator is absent the argument
part is the empty string.  (The source would raise on an empty separator;
the engine always uses a non-empty one, by default a single space.) -/
def Parser.split (p : Parser) (line : String) : String × String :=
  match splitOnceAux p.command_separator.data line.data with
  | some pr => (String.mk pr.1, String.mk pr.2)
  | none => (line, "")

/-- Embeds Parser.get_commands: the overload bucket registered under a
name, or the empty list. -/
def Parser.get_commands (p : Parser) (name : String) : List Command :=
  match List.lookup name p.commands with
  | some lst => lst
  | none => []

/-- Caller state as it stands inside the dispatch loop, after handle_line
has filled in the command name and argument string (parser.py lines
236-237). -/
def dispatchCaller (text name args : String) : Caller :=
  { text := text, command := name, args_str := args, args := [], kwargs := []
    exception := none }

/-- Result of one run of handle_line: the event trace, the matched-command
counter, and the return value (the counter if positive, otherwise None). -/
structure DispatchResult where
  events : List DEvent
  matched : Nat
  ret : Option Nat
deriving DecidableEq

/-- Embeds Parser.handle_line (parser.py lines 225-268): substitution
rewrite, Caller construction, pre_command gate, split into name and
argument string, the overload loop, the for-else unrecognized-command
hook (which runs only when the loop was not broken and nothing matched),
and the return value. -/
def Parser.handle_line (p : Parser) (line : String) : DispatchResult :=
  let line1 := pySubstitute p.command_substitutions p.command_separator line
  let caller0 := mkCaller line1
  if p.pre_command caller0 then
    let sp := p.split line1
    let caller := { caller0 with command := sp.1, args_str := sp.2 }
    let out := handleLoop (p.get_commands sp.1) caller 0
    let evs := if out.2.2 = false ∧ out.2.1 = 0 then out.1 ++ [DEvent.huh] else out.1
    { events := evs, matched := out.2.1
      ret := if 0 < out.2.1 then some out.2.1 else none }
  else
    { events := [], matched := 0, ret := none }

/-- Concrete overload whose handler raises an ordinary exception; used to
exercise the exception arm of the dispatch loop. -/
def raisingCommand : Command :=
  { id := 0, allowed := fun _ => true, args_regexp := none
    func := fun _ => HandlerResult.raised "boom" }

/-- Concrete overload whose handler returns cleanly. -/
def plainCommand : Command :=
  { id := 1, allowed := fun _ => true, args_regexp := none
    func := fun _ => HandlerResult.ok }

/-- Parser registering two overloads under the name go: the first raises,
the second succeeds. -/
def twoOverloadParser : Parser :=
  { command_separator := " ", commands := [("go", [raisingCommand, plainCommand])]
    command_substitutions := [], pre_command := fun _ => true }

/-- Variant of raisingCommand with a distinct id, for a separate scenario. -/
def wRaisingCommand : Command :=
  { id := 10, allowed := fun _ => true, args_regexp := none
    func := fun _ => HandlerResult.raised "oops" }

/-- Variant of plainCommand with a distinct id, for a separate scenario. -/
def wPlainCommand : Command :=
  { id := 11, allowed := fun _ => true, args_regexp := none
    func := fun _ => HandlerResult.ok }

/-- Parser registering wRaisingCommand then wPlainCommand under the name w. -/
def wFaultParser : Parser :=
  { command_separator := " ", commands := [("w", [wRaisingCommand, wPlainCommand])]
    command_substitutions := [], pre_command := fun _ => true }

/-- Argument pattern that matches nothing, modelling a compiled regular
expression that fails on every argument string. -/
def neverPattern : String → Option (List String × List (String × String)) :=
  fun _ => none

/-- Concrete overload carrying the never-matching argument pattern. -/
def patternCommand : Command :=
  { id := 2, allowed := fun _ => true, args_regexp := some neverPattern
    func := fun _ => HandlerResult.ok }

/-- Concrete overload registered after patternCommand under the same name. -/
def afterCommand : Command :=
  { id := 3, allowed := fun _ => true, args_regexp := none
    func := fun _ => HandlerResult.ok }

/-- Parser registering patternCommand then afterCommand under the name set. -/
def usageParser : Parser :=
  { command_separator := " ", commands := [("set", [patternCommand, afterCommand])]
    command_substitutions := [], pre_command := fun _ => true }

/-- Concrete overload whose permission predicate rejects every caller. -/
def deniedCommand : Command :=
  { id := 4, allowed := fun _ => false, args_regexp := none
    func := fun _ => HandlerResult.ok }

/-- Concrete overload registered after deniedCommand. -/
def nextCommand : Command :=
  { id := 5, allowed := fun _ => true, args_regexp := none
    func := fun _ => HandlerResult.ok }

/-- Parser whose single overload under go is permission-denied for every
caller. -/
def deniedParser : Parser :=
  { command_separator := " ", commands := [("go", [deniedCommand])]
    command_substitutions := [], pre_command := fun _ => true }

/-- Embeds the session owner (gsb.server.Server) as far as the
dispatcher-swap protocol needs it: the baseline field models the
default_parser attribute, the session-wide dispatcher handed to
connections that would otherwise lose their dispatcher.  Dispatcher
identities are modelled as Nat (Python object identity). -/
structure Server where
  baseline : Nat
deriving DecidableEq

/-- Observable events of the Protocol.parser property setter:
on_detach o v - the o dispatcher's on_detach hook was called with the
              incoming value v (protocol.py lines 61-62);
warned        - the None-fallback warning was logged (lines 65-68);
on_attach v o - the v dispatcher's on_attach hook was called with the
              previous dispatcher o (line 71). -/
inductive PEvent where
  | on_detach : Nat → Option Nat → PEvent
  | warned : PEvent
  | on_attach : Nat → Option Nat → PEvent
deriving DecidableEq

/-- Embeds the Protocol.parser property setter (protocol.py lines 57-71):
the old dispatcher's on_detach hook is called with the incoming value
(still None in the fallback case, since the fallback happens afterwards);
a None value falls back to the session baseline with a logged warning;
the value is stored as the connection's current dispatcher and its
on_attach hook is called with the old dispatcher.  Returns the new stored
dispatcher and the hook trace.  The stray debug print on line 70 goes to
the server's stdout, not to the connection, and is not an event. -/
def setParser (srv : Server) (cur : Option Nat) (value : Option Nat) :
    Option Nat × List PEvent :=
  let detachEvs : List PEvent :=
    match cur with
    | some o => [PEvent.on_detach o value]
    | none => []
  match value with
  | none =>
    (some srv.baseline, detachEvs ++ [PEvent.warned, PEvent.on_attach srv.baseline cur])
  | some v => (some v, detachEvs ++ [PEvent.on_attach v cur])

/-- Embeds the state of gsb.intercept.Intercept: the abort-command token,
the aborted notice, the optional abort-suppression message (a callable
no_abort is modelled by the message it would produce), and restoreTo,
which models the restore_parser attribute - the dispatcher reference the
flow assigns back to the connection on a successful abort. -/
structure Intercept where
  abort_command : String
  aborted : String
  no_abort : Option String
  restoreTo : Option Nat
deriving DecidableEq

/-- Embeds Intercept.__init__ (intercept.py lines 56-69).  The constructor
signature accepts no_abort and restore_parser arguments, but the body
assigns the literal None to both attributes (lines 68-69), so the two
arguments are discarded; only abort_command and aborted are stored. -/
def Intercept.init (abort_command : String) (aborted : String)
    (na : Option String) (rp : Option Nat) : Intercept :=
  { abort_command := abort_command, aborted := aborted
    no_abort := none, restoreTo := none }

/-- Embeds Intercept.on_attach (intercept.py lines 89-91): the hook only
renders the flow's prompt via self.explain(connection); it reads nothing
from old_parser and changes no attribute of the instance. -/
def Intercept.on_attach (i : Intercept) (old : Option Nat) : Intercept := i

/-- Observable events of the interactive flows (Intercept, Menu, Reader,
YesOrNo):
sent s       - the string s was notified to the connection;
assigned v   - the flow executed connection.parser = v;
yesCalled / noCalled - the YesOrNo callbacks;
doneCalled s - the Reader completion hook ran with buffer s;
spellCheck s - the Reader swapped to the spell-check flow with buffer s;
itemCalled k - the Menu item with id k had its callback invoked;
customNoMatches / customMultiple - a user-supplied Menu hook ran;
explained    - the flow re-rendered itself via explain. -/
inductive Ev where
  | sent : String → Ev
  | assigned : Option Nat → Ev
  | yesCalled : Ev
  | noCalled : Ev
  | doneCalled : String → Ev
  | spellCheck : String → Ev
  | itemCalled : Nat → Ev
  | customNoMatches : Ev
  | customMultiple : List Nat → Ev
  | explained : Ev
deriving DecidableEq

/-- Embeds Intercept.do_abort (intercept.py lines 79-87) as its event
trace: when no_abort is configured its message is sent and nothing else
happens; otherwise the aborted notice is sent and connection.parser is
assigned restore_parser. -/
def abortEvs (no_abort : Option String) (aborted : String)
    (restoreTo : Option Nat) : List Ev :=
  match no_abort with
  | some msg => [Ev.sent msg]
  | none => [Ev.sent aborted, Ev.assigned restoreTo]

/-- Intercept.do_abort on an Intercept value. -/
def Intercept.do_abort (i : Intercept) : List Ev :=
  abortEvs i.no_abort i.aborted i.restoreTo

/-- Embeds Intercept.huh (intercept.py lines 93-99): a line equal to the
abort command runs do_abort and reports handled; any other line is not
handled here. -/
def Intercept.huh (i : Intercept) (text : String) : List Ev × Bool :=
  if text = i.abort_command then (i.do_abort, true) else ([], false)

/-- Models Python str.lower() for the character set the engine handles. -/
def pyLower (s : String) : String := String.mk (s.data.map Char.toLower)

/-- Models Python str.startswith(t). -/
def pyStartswith (s : String) (t : String) : Bool := List.isPrefixOf t.data s.data

/-- Value of a nonempty all-digit character list, for pyInt. -/
def digitsVal (cs : List Char) : Option Nat :=
  if cs ≠ [] ∧ cs.all Char.isDigit then
    some (cs.foldl (fun a c => a * 10 + (c.toNat - 48)) 0)
  else none

/-- Models Python int(s) on text input: surrounding whitespace is
ignored, an optional sign is followed by one or more ASCII digits;
anything else raises ValueError, modelled as none.  (Underscore digit
grouping and non-ASCII digits, which CPython also accepts, do not occur
in menu input and are not modelled.) -/
def pyInt (s : String) : Option Int :=
  let cs := ((s.data.dropWhile Char.isWhitespace).reverse.dropWhile
    Char.isWhitespace).reverse
  match cs with
  | '-' :: rest => (digitsVal rest).map (fun n => -(n : Int))
  | '+' :: rest => (digitsVal rest).map (fun n => (n : Int))
  | rest => (digitsVal rest).map (fun n => (n : Int))

/-- Models Python list indexing l[n] with a possibly negative index: a
negative n counts from the end; out of range raises IndexError, modelled
as none. -/
def pyIndex {α : Type} (l : List α) (n : Int) : Option α :=
  if 0 ≤ n then l.get? n.toNat
  else
    let m : Int := (l.length : Int) + n
    if 0 ≤ m then l.get? m.toNat else none

/-- Embeds gsb.intercept.MenuItem: the label text, the display index
(MenuItem.__init__ sets it to 0), and fid, which models the identity of
the callback function (the func attribute) as well as the identity of
the item object itself. -/
structure MenuItem where
  text : String
  fid : Nat
  index : Nat
deriving DecidableEq

/-- Embeds MenuItem.as_string (intercept.py line 129). -/
def MenuItem.as_string (it : MenuItem) : String :=
  "[" ++ toString it.index ++ "] " ++ it.text

/-- Embeds gsb.intercept.MenuLabel: a section heading anchored after the
item whose identity is after, or at the top when after is none. -/
structure MenuLabel where
  text : String
  after : Option Nat
deriving DecidableEq

/-- Position of the first item with the given identity, modelling
Python list.index, which compares MenuItem objects by identity. -/
def listIndexFid (items : List MenuItem) (fid : Nat) : Nat :=
  items.findIdx (fun it => it.fid == fid)

/-- Embeds the index-recomputation loop of Menu.__init__ (intercept.py
lines 224-225): every item receives list.index(item) + 1; for a list of
distinct objects that is its 1-based position. -/
def recomputeIndices (items : List MenuItem) : List MenuItem :=
  items.map (fun it => { it with index := listIndexFid items it.fid + 1 })

/-- Embeds the state of gsb.intercept.Menu.  The four Intercept fields
come first; Menu.__init__ calls Intercept.__init__() with no arguments,
so they always start as the defaults.  hasNoMatchesHook and
hasMultipleMatchesHook record whether a user-supplied hook replaces the
default _no_matches and _multiple_matches behaviour. -/
structure Menu where
  abort_command : String
  aborted : String
  no_abort : Option String
  restoreTo : Option Nat
  title : String
  items : List MenuItem
  labels : List MenuLabel
  prompt : String
  hasNoMatchesHook : Bool
  hasMultipleMatchesHook : Bool
  persistent : Bool
deriving DecidableEq

/-- Embeds Menu.__init__ (intercept.py lines 200-225): Intercept defaults,
the stored attributes, and the index recomputation over the initial
items. -/
def Menu.init (title : String) (items : List MenuItem) (labels : List MenuLabel)
    (prompt : String) (hasNoMatchesHook : Bool) (hasMultipleMatchesHook : Bool)
    (persistent : Bool) : Menu :=
  { abort_command := "@abort", aborted := "Aborted", no_abort := none
    restoreTo := none, title := title, items := recomputeIndices items
    labels := labels, prompt := prompt, hasNoMatchesHook := hasNoMatchesHook
    hasMultipleMatchesHook := hasMultipleMatchesHook, persistent := persistent }

/-- Embeds the decorator Menu.item (intercept.py lines 233-243).  The
inner function constructs a MenuItem - whose index is 0, from
MenuItem.__init__ - appends it to self.items, and then calls
self.__attrs_post_init__().  No class in the package defines
__attrs_post_init__ (a leftover of an earlier attrs-based version of
Menu), so the call raises AttributeError: the append has already
happened, and no index recomputation takes place. -/
def Menu.itemDecorator (m : Menu) (name : String) (fid : Nat) :
    Menu × Except String MenuItem :=
  let i : MenuItem := { text := name, fid := fid, index := 0 }
  ({ m with items := m.items ++ [i] }, Except.error "AttributeError")

/-- Outcome of Menu.match classified: an item was selected; the zero-match
path was taken (the no-match hook runs); the several-match path was taken
(the multiple-match hook runs); the text was empty (match returns None
with no hook); or an uncaught IndexError escaped (the $ selector on an
empty item list, intercept.py lines 306-307, outside the try block). -/
inductive MenuResult where
  | selected : MenuItem → MenuResult
  | noMatchesPath : MenuResult
  | multipleMatchesPath : List MenuItem → MenuResult
  | noText : MenuResult
  | indexError : MenuResult
deriving DecidableEq

/-- Embeds the label scan of Menu.match (intercept.py lines 314-318):
the items whose lowercased label starts with the lowercased input. -/
def labelMatches (items : List MenuItem) (t : String) : List MenuItem :=
  items.filter (fun it => pyStartswith (pyLower it.text) t)

/-- Embeds the except branch of Menu.match (intercept.py lines 313-330),
reached on ValueError or IndexError: prefix-scan the labels (the scan is
guarded by the text being non-empty), then classify by the number of
matches. -/
def menuTextMatch (items : List MenuItem) (t : String) : MenuResult :=
  let ms := if t = "" then [] else labelMatches items t
  match ms with
  | [] => MenuResult.noMatchesPath
  | [it] => MenuResult.selected it
  | its => MenuResult.multipleMatchesPath its

/-- Embeds Menu.match (intercept.py lines 297-332): empty text returns
None with no hook; the lowercased text $ selects the last item (IndexError
escapes on an empty menu); text parsing as an integer n selects index
n - 1 when n > 0 and raw index n otherwise, an out-of-range index falling
into the except branch; unparsable text goes to the except branch
directly. -/
def Menu.matchItem (items : List MenuItem) (text : String) : MenuResult :=
  if text = "" then MenuResult.noText
  else
    let t := pyLower text
    if t = "$" then
      match items.getLast? with
      | some it => MenuResult.selected it
      | none => MenuResult.indexError
    else
      match pyInt t with
      | some num =>
        match pyIndex items (if 0 < num then num - 1 else num) with
        | some it => MenuResult.selected it
        | none => menuTextMatch items t
      | none => menuTextMatch items t

/-- Embeds Menu.send_items (intercept.py lines 251-263) as the trace of
notified lines: top-anchored labels first, then each item as_string
followed by the labels anchored after it. -/
def sendItemsEvs (labels : List MenuLabel) (items : List MenuItem) : List Ev :=
  (labels.filterMap (fun lb =>
    if lb.after = none then some (Ev.sent lb.text) else none))
  ++ items.bind (fun i =>
      Ev.sent i.as_string ::
        labels.filterMap (fun lb =>
          if lb.after = some i.fid then some (Ev.sent lb.text) else none))

/-- Embeds Menu.huh (intercept.py lines 283-295) together with the hook
dispatch inside Menu.match (lines 319-330) and the default hooks
_no_matches (lines 265-272, which notifies and, when the menu is not
persistent, assigns restore_parser) and _multiple_matches (lines 274-281,
which notifies the ambiguous items and the prompt and leaves the
dispatcher alone).  A selected item first assigns restore_parser, then
has its callback invoked; when match yields no item and the menu is
persistent, the menu re-renders itself.  The IndexError case propagates
as an error, as it does in the source. -/
def Menu.huh (m : Menu) (text : String) : Except String (List Ev × Bool) :=
  if text = m.abort_command then
    Except.ok (abortEvs m.no_abort m.aborted m.restoreTo, true)
  else
    match Menu.matchItem m.items text with
    | MenuResult.indexError => Except.error "IndexError"
    | MenuResult.selected it =>
      Except.ok ([Ev.assigned m.restoreTo, Ev.itemCalled it.fid], true)
    | MenuResult.noText =>
      Except.ok ((if m.persistent then [Ev.explained] else []), true)
    | MenuResult.noMatchesPath =>
      let hookEvs :=
        if m.hasNoMatchesHook then [Ev.customNoMatches]
        else
          Ev.sent "Invalid selection." ::
            (if m.persistent then [] else [Ev.assigned m.restoreTo])
      Except.ok (hookEvs ++ (if m.persistent then [Ev.explained] else []), true)
    | MenuResult.multipleMatchesPath its =>
      let hookEvs :=
        if m.hasMultipleMatchesHook then [Ev.customMultiple (its.map MenuItem.fid)]
        else
          Ev.sent "That matched multiple items:" ::
            (sendItemsEvs m.labels its ++ [Ev.sent m.prompt])
      Except.ok (hookEvs ++ (if m.persistent then [Ev.explained] else []), true)

/-- Concrete menu item with a numeral-prefixed label. -/
def itemTenGold : MenuItem := { text := "10 gold", fid := 0, index := 1 }

/-- Concrete items from the specification example. -/
def appleItem : MenuItem := { text := "Apple", fid := 0, index := 1 }

/-- Concrete items from the specification example. -/
def apricotItem : MenuItem := { text := "Apricot", fid := 1, index := 2 }

/-- Concrete items from the specification example. -/
def bananaItem : MenuItem := { text := "Banana", fid := 2, index := 3 }

/-- The item list of the specification example. -/
def demoItems : List MenuItem := [appleItem, apricotItem, bananaItem]

/-- Concrete menu holding one item, for exercising the item decorator. -/
def oneItemMenu : Menu :=
  Menu.init "Select an item:" [{ text := "a", fid := 0, index := 0 }] []
    "Type a number or @abort to abort." false false false

/-- Embeds the state of gsb.intercept.Reader.  The four Intercept fields
come first; Reader.__init__ calls Intercept.__init__() with no arguments.
prompt, before_line and after_line are string-or-callable hooks in the
source, modelled by the message they produce; hasDone records whether a
completion hook was supplied. -/
structure Reader where
  abort_command : String
  aborted : String
  no_abort : Option String
  restoreTo : Option Nat
  prompt : Option String
  line_separator : String
  done_command : String
  spell_check_command : String
  multiline : Bool
  before_line : Option String
  after_line : Option String
  buffer : String
  hasDone : Bool
deriving DecidableEq

/-- Embeds Reader.huh (intercept.py lines 426-459), returning the updated
reader, the event trace, and the handled flag.  Order of the source: the
after_line hook fires first; a line equal to the abort command runs the
inherited abort; a line equal to the spell-check command hands the buffer
to the spell-check flow (the availability check of get_spell_checker and
its not-available notice are collapsed into the one spellCheck event -
no claim exercises that branch); otherwise, unless this is a multiline
reader receiving its finish token, the line is folded into the buffer
(joined with the separator when both sides are non-empty, replacing an
empty buffer, and ignored when empty); caller.text becomes the buffer;
then, when the reader is single-line or the finish token arrived,
connection.parser is assigned restore_parser and the completion hook runs
with the buffer, else the before_line hook fires and the line is reported
unhandled. -/
def Reader.huh (r : Reader) (line : String) : Reader × List Ev × Bool :=
  let evA : List Ev :=
    match r.after_line with
    | some s => [Ev.sent s]
    | none => []
  if line = r.abort_command then
    (r, evA ++ abortEvs r.no_abort r.aborted r.restoreTo, true)
  else if line = r.spell_check_command then
    (r, evA ++ [Ev.spellCheck r.buffer], true)
  else
    let buf :=
      if ¬ r.multiline ∨ line ≠ r.done_command then
        if r.buffer ≠ "" ∧ line ≠ "" then r.buffer ++ r.line_separator ++ line
        else if line ≠ "" then line
        else r.buffer
      else r.buffer
    let r1 := { r with buffer := buf }
    if ¬ r.multiline ∨ line = r.done_command then
      (r1, evA ++ (Ev.assigned r.restoreTo ::
        (if r.hasDone then [Ev.doneCalled buf] else [])), true)
    else
      (r1, evA ++ (match r.before_line with
        | some s => [Ev.sent s]
        | none => []), false)

/-- Test harness: feeds a sequence of lines to one Reader, threading the
state and concatenating the event traces. -/
def runLines (r : Reader) : List String → Reader × List Ev
  | [] => (r, [])
  | l :: rest =>
    let out := Reader.huh r l
    let cont := runLines out.1 rest
    (cont.1, out.2.1 ++ cont.2)

/-- Concrete single-line reader with a prior dispatcher 5 recorded in
restore_parser and a completion hook. -/
def singleReader : Reader :=
  { abort_command := "@abort", aborted := "Aborted", no_abort := none
    restoreTo := some 5, prompt := none, line_separator := "\n"
    done_command := ".", spell_check_command := ".spell", multiline := false
    before_line := none, after_line := none, buffer := "", hasDone := true }

/-- Concrete multi-line reader: separator newline, finish token a full
stop, prior dispatcher 5, completion hook present. -/
def multiReader : Reader :=
  { singleReader with multiline := true }

/-- Embeds the state of gsb.intercept.YesOrNo.  The four Intercept fields
come first; YesOrNo.__init__ calls Intercept.__init__() with no
arguments.  hasNo records whether a no-callback was supplied. -/
structure YesOrNo where
  abort_command : String
  aborted : String
  no_abort : Option String
  restoreTo : Option Nat
  question : String
  prompt : String
  hasNo : Bool
deriving DecidableEq

/-- Embeds YesOrNo.__init__ (intercept.py lines 494-511): Intercept
defaults, the question, whether a no-callback was supplied, and the
prompt, which defaults to a sentence naming the abort command (always
the default token at construction time). -/
def YesOrNo.init (question : String) (hasNo : Bool) (prompt : Option String) : YesOrNo :=
  { abort_command := "@abort", aborted := "Aborted", no_abort := none
    restoreTo := none, question := question
    prompt :=
      match prompt with
      | some s => s
      | none => "Enter \"yes\" or \"no\" or @abort to abort the command."
    hasNo := hasNo }

/-- Embeds YesOrNo.huh (intercept.py lines 518-533): the inherited abort
check runs first; a non-empty non-abort line first assigns
restore_parser to the connection and then invokes the yes-callback when
the lowercased text starts with y, else the no-callback when present,
else do_abort; an empty line does nothing and is reported unhandled. -/
def YesOrNo.huh (y : YesOrNo) (text : String) : List Ev × Bool :=
  if text = y.abort_command then
    (abortEvs y.no_abort y.aborted y.restoreTo, true)
  else if text ≠ "" then
    (Ev.assigned y.restoreTo ::
      (if pyStartswith (pyLower text) "y" then [Ev.yesCalled]
       else if y.hasNo then [Ev.noCalled]
       else abortEvs y.no_abort y.aborted y.restoreTo), true)
  else ([], false)

/-- Concrete YesOrNo with both callbacks and a prior dispatcher 5. -/
def demoYesOrNo : YesOrNo :=
  { YesOrNo.init "Are you sure?" true none with restoreTo := some 5 }

/-- Helper: overloads whose permission predicate rejects the current
caller are passed over without any event, leaving the loop state
untouched. -/
theorem handleLoop_skip_denied (caller : Caller) (rest : List Command) :
    ∀ (pre : List Command) (n : Nat), (∀ d ∈ pre, d.allowed caller = false) →
      handleLoop (pre ++ rest) caller n = handleLoop rest caller n := by
  intro pre
  induction pre with
  | nil => intro n _; rfl
  | cons d pre ih =>
    intro n h
    have hd : d.allowed caller = false := h d (List.mem_cons_self d pre)
    simp only [List.cons_append, handleLoop, hd, Bool.false_eq_true, if_false]
    exact ih n (fun d2 h2 => h d2 (List.mem_cons_of_mem d h2))

/-- Helper: the matched-command counter never decreases as the loop runs. -/
theorem handleLoop_count_le : ∀ (l : List Command) (cl : Caller) (n : Nat),
    n ≤ (handleLoop l cl n).2.1 := by
  intro l
  induction l with
  | nil => intro cl n; exact Nat.le_refl n
  | cons c rest ih =>
    intro cl n
    simp only [handleLoop]
    by_cases hd : c.allowed cl
    · simp only [hd, if_true]
      cases hreg : c.args_regexp with
      | none =>
        cases hf : c.func { cl with args := [], kwargs := [] } <;> simp only [hf] <;>
          first
          | exact Nat.le_succ n
          | exact Nat.le_trans (Nat.le_succ n) (ih _ (n + 1))
      | some pat =>
        cases hm : pat cl.args_str with
        | none => simp only [hm]; exact Nat.le_refl n
        | some g =>
          simp only [hm]
          cases hf : c.func { cl with args := g.1, kwargs := g.2 } <;> simp only [hf] <;>
            first
            | exact Nat.le_succ n
            | exact Nat.le_trans (Nat.le_succ n) (ih _ (n + 1))
    · simp only [hd, if_false]
      exact ih cl n

/-- Helper: the observable outcome of handle_line, expressed through the
outcome of the overload loop. -/
theorem handle_line_spec (p : Parser) (line line1 name args : String) (caller : Caller)
    (evs : List DEvent) (cnt : Nat) (brk : Bool)
    (h1 : line1 = pySubstitute p.command_substitutions p.command_separator line)
    (h2 : p.pre_command (mkCaller line1) = true)
    (h3 : p.split line1 = (name, args))
    (h4 : caller = { mkCaller line1 with command := name, args_str := args })
    (hloop : handleLoop (p.get_commands name) caller 0 = (evs, cnt, brk)) :
    p.handle_line line =
      { events := if brk = false ∧ cnt = 0 then evs ++ [DEvent.huh] else evs
        matched := cnt
        ret := if 0 < cnt then some cnt else none } := by
  subst h1
  subst h4
  simp only [Parser.handle_line, h2, if_true, h3, mkCaller] at *
  rw [hloop]

/-- C3 (confirmed): for every parser, line, and position in the overload
sequence of the dispatched name, if the overload at that position has an
argument pattern and the pattern fails to match the argument string, the
usage explanation of that Command is sent to the connection and no later
overload for that name is attempted on this line - the loop stops rather
than skipping. -/
theorem gsb_C3 (p : Parser) (line line1 name args : String) (caller : Caller)
    (pre post : List Command) (c : Command)
    (pat : String → Option (List String × List (String × String)))
    (h1 : line1 = pySubstitute p.command_substitutions p.command_separator line)
    (h2 : p.pre_command (mkCaller line1) = true)
    (h3 : p.split line1 = (name, args))
    (h4 : caller = { mkCaller line1 with command := name, args_str := args })
    (h5 : p.get_commands name = pre ++ c :: post)
    (h6 : ∀ d ∈ pre, d.allowed caller = false)
    (h7 : c.allowed caller = true)
    (h8 : c.args_regexp = some pat)
    (h9 : pat args = none) :
    (p.handle_line line).events = [DEvent.explain c.id] ∧
    (p.handle_line line).ret = none ∧
    ∀ ev ∈ (p.handle_line line).events, ∀ d ∈ post, ev ≠ DEvent.ran d.id := by
  have hargs : caller.args_str = args := by rw [h4]
  have hloop : handleLoop (p.get_commands name) caller 0
      = ([DEvent.explain c.id], 0, true) := by
    rw [h5, handleLoop_skip_denied caller (c :: post) pre 0 h6]
    simp only [handleLoop, h7, if_true, h8, hargs, h9]
  rw [handle_line_spec p line line1 name args caller _ _ _ h1 h2 h3 h4 hloop]
  refine ⟨by simp, by simp, ?_⟩
  intro ev hev d _
  simp only [Bool.true_eq_false, false_and, if_false, List.mem_singleton] at hev
  subst hev
  simp

/-- C3 witness: a concrete parser with two overloads under the name set;
the first carries a never-matching pattern, so dispatch on the line
set x sends its usage explanation and never reaches the second. -/
theorem gsb_C3_witness :
    (usageParser.handle_line "set x").events = [DEvent.explain 2] ∧
    (usageParser.handle_line "set x").ret = none ∧
    ∀ ev ∈ (usageParser.handle_line "set x").events,
      ∀ d ∈ [afterCommand], ev ≠ DEvent.ran d.id :=
  gsb_C3 usageParser "set x" "set x" "set" "x"
    (dispatchCaller "set x" "set" "x") [] [afterCommand] patternCommand neverPattern
    rfl rfl rfl rfl rfl (by intro d hd; simp at hd) rfl rfl rfl

/-- Helper: an overload whose permission predicate rejects every caller
state can be deleted from the overload sequence without changing the
outcome of the dispatch loop. -/
theorem handleLoop_denied_removed (c : Command) (ys : List Command)
    (hc : ∀ cl : Caller, c.allowed cl = false) :
    ∀ (xs : List Command) (cl : Caller) (n : Nat),
      handleLoop (xs ++ c :: ys) cl n = handleLoop (xs ++ ys) cl n := by
  intro xs
  induction xs with
  | nil =>
    intro cl n
    simp only [List.nil_append, handleLoop, hc cl, Bool.false_eq_true, if_false]
  | cons d xs ih =>
    intro cl n
    simp only [List.cons_append, handleLoop]
    by_cases hd : d.allowed cl
    · simp only [hd, if_true]
      cases hreg : d.args_regexp with
      | none =>
        cases hf : d.func { cl with args := [], kwargs := [] } <;> simp [hf, ih]
      | some pat =>
        cases hm : pat cl.args_str with
        | none => simp only [hm]
        | some g =>
          simp only [hm]
          cases hf : d.func { cl with args := g.1, kwargs := g.2 } <;> simp [hf, ih]
    · simp only [hd, if_false]
      exact ih cl n

/-- C4 (confirmed): an overload whose permission predicate rejects the
caller is skipped silently - removing it from the overload sequence
changes nothing in the dispatch outcome, so the following overload is
still attempted exactly as before; and when no Command is registered
under the dispatched name, or every registered overload is rejected by
its permission predicate, the unrecognized-command hook is the only
observable effect and the return value is None. -/
theorem gsb_C4 :
    (∀ (c : Command) (ys : List Command), (∀ cl : Caller, c.allowed cl = false) →
      ∀ (xs : List Command) (cl : Caller) (n : Nat),
        handleLoop (xs ++ c :: ys) cl n = handleLoop (xs ++ ys) cl n) ∧
    (∀ (p : Parser) (line line1 name args : String) (caller : Caller),
      line1 = pySubstitute p.command_substitutions p.command_separator line →
      p.pre_command (mkCaller line1) = true →
      p.split line1 = (name, args) →
      caller = { mkCaller line1 with command := name, args_str := args } →
      (∀ d ∈ p.get_commands name, d.allowed caller = false) →
      (p.handle_line line).events = [DEvent.huh] ∧ (p.handle_line line).ret = none) := by
  constructor
  · exact fun c ys hc => handleLoop_denied_removed c ys hc
  · intro p line line1 name args caller h1 h2 h3 h4 hall
    have hloop : handleLoop (p.get_commands name) caller 0 = ([], 0, false) := by
      have h := handleLoop_skip_denied caller [] (p.get_commands name) 0 hall
      rw [List.append_nil] at h
      rw [h]
      rfl
    rw [handle_line_spec p line line1 name args caller _ _ _ h1 h2 h3 h4 hloop]
    exact ⟨by simp, by simp⟩

/-- C4 witness: removing an always-denied overload leaves the loop
outcome unchanged, and a parser whose only overload under go rejects
every caller answers the line go with the unrecognized-command hook. -/
theorem gsb_C4_witness :
    handleLoop ([] ++ deniedCommand :: [nextCommand]) (dispatchCaller "go" "go" "") 0
      = handleLoop ([] ++ [nextCommand]) (dispatchCaller "go" "go" "") 0 ∧
    (deniedParser.handle_line "go").events = [DEvent.huh] ∧
    (deniedParser.handle_line "go").ret = none :=
  ⟨(gsb_C4.1 deniedCommand [nextCommand] (fun _ => rfl) [] (dispatchCaller "go" "go" "") 0),
    (gsb_C4.2 deniedParser "go" "go" "go" "" (dispatchCaller "go" "go" "")
      rfl rfl rfl rfl (by decide)).1,
    (gsb_C4.2 deniedParser "go" "go" "go" "" (dispatchCaller "go" "go" "")
      rfl rfl rfl rfl (by decide)).2⟩

/-- C1 counterexample: the claim states that after a handler raises an
ordinary exception, dispatch stops for the line and no later overload is
attempted.  On twoOverloadParser the line go first runs the raising
overload (id 0); the loop body of handle_line has no break in its generic
exception arm, so the loop then proceeds to run the second overload
(id 1).  The trace therefore contains ran 1 after the error hook, and is
not the two-event trace the claim requires. -/
theorem gsb_C1_counterexample :
    (twoOverloadParser.handle_line "go").events
      = [DEvent.ran 0, DEvent.error_hook 0 "boom", DEvent.ran 1] ∧
    (twoOverloadParser.handle_line "go").events
      ≠ [DEvent.ran 0, DEvent.error_hook 0 "boom"] := by
  exact ⟨rfl, by decide⟩

/-- C1 (corrected): when the overload at some position of the dispatched
bucket is reached (every earlier overload permission-skipped), is allowed,
has no argument pattern, and its handler raises an ordinary exception e,
then the exception is caught, recorded on the Caller, and the error hook
is invoked - but dispatch does not stop there: the remaining trace is
exactly the loop continuing over the later overloads with the
exception-carrying caller, and the line still returns a positive matched
count. -/
theorem gsb_C1_amended (p : Parser) (line line1 name args : String)
    (caller caller2 : Caller) (pre post : List Command) (c : Command) (e : String)
    (h1 : line1 = pySubstitute p.command_substitutions p.command_separator line)
    (h2 : p.pre_command (mkCaller line1) = true)
    (h3 : p.split line1 = (name, args))
    (h4 : caller = { mkCaller line1 with command := name, args_str := args })
    (h5 : p.get_commands name = pre ++ c :: post)
    (h6 : ∀ d ∈ pre, d.allowed caller = false)
    (h7 : c.allowed caller = true)
    (h8 : c.args_regexp = none)
    (h9 : c.func { caller with args := [], kwargs := [] } = HandlerResult.raised e)
    (h10 : caller2 = { caller with args := [], kwargs := [], exception := some e }) :
    (p.handle_line line).events
      = DEvent.ran c.id :: DEvent.error_hook c.id e :: (handleLoop post caller2 1).1 ∧
    (p.handle_line line).ret = some (handleLoop post caller2 1).2.1 ∧
    0 < (p.handle_line line).matched := by
  subst h10
  have hloop : handleLoop (p.get_commands name) caller 0
      = (DEvent.ran c.id :: DEvent.error_hook c.id e ::
          (handleLoop post { caller with args := [], kwargs := [], exception := some e } 1).1,
        (handleLoop post { caller with args := [], kwargs := [], exception := some e } 1).2.1,
        (handleLoop post { caller with args := [], kwargs := [], exception := some e } 1).2.2) := by
    rw [h5, handleLoop_skip_denied caller (c :: post) pre 0 h6]
    simp only [handleLoop, h7, if_true, h8, h9]
  have hpos : 0 <
      (handleLoop post { caller with args := [], kwargs := [], exception := some e } 1).2.1 :=
    Nat.lt_of_lt_of_le Nat.zero_lt_one (handleLoop_count_le post _ 1)
  rw [handle_line_spec p line line1 name args caller _ _ _ h1 h2 h3 h4 hloop]
  refine ⟨?_, ?_, ?_⟩
  · rw [if_neg]
    rintro ⟨-, h0⟩
    exact Nat.lt_irrefl 0 (h0 ▸ hpos)
  · simp only [if_pos hpos]
  · simpa using hpos

/-- C1 amended witness: on wFaultParser the line w runs the raising
overload (id 10), invokes the error hook, and then continues into the
loop over the remaining overload, which runs (id 11); the return value is
the matched count 2. -/
theorem gsb_C1_amended_witness :
    (wFaultParser.handle_line "w").events
      = [DEvent.ran 10, DEvent.error_hook 10 "oops", DEvent.ran 11] ∧
    (wFaultParser.handle_line "w").ret = some 2 := by
  have h := gsb_C1_amended wFaultParser "w" "w" "w" ""
    (dispatchCaller "w" "w" "")
    { dispatchCaller "w" "w" "" with args := [], kwargs := [], exception := some "oops" }
    [] [wPlainCommand] wRaisingCommand "oops"
    rfl rfl rfl rfl rfl (by intro d hd; simp at hd) rfl rfl rfl rfl
  exact ⟨h.1.trans rfl, h.2.1.trans rfl⟩

/-- C2 counterexample: take a connection whose active dispatcher is 5
(the would-be predecessor), a baseline dispatcher 1, and an Intercept
built with restore_parser = 5 which is then attached (on_attach called
with old dispatcher 5).  The claim requires restore_parser to become 5
at that moment; in fact it is still None - the constructor discarded the
argument and on_attach captures nothing.  A successful abort (input equal
to the abort token, no abort suppression) assigns None to the connection,
and the setter falls back to the baseline 1, not to the predecessor 5. -/
theorem gsb_C2_counterexample :
    ((Intercept.init "@abort" "Aborted" none (some 5)).on_attach (some 5)).restoreTo
      = none ∧
    ((Intercept.init "@abort" "Aborted" none (some 5)).on_attach (some 5)).restoreTo
      ≠ some 5 ∧
    ((Intercept.init "@abort" "Aborted" none (some 5)).on_attach (some 5)).huh "@abort"
      = ([Ev.sent "Aborted", Ev.assigned none], true) ∧
    (setParser { baseline := 1 } (some 7)
        ((Intercept.init "@abort" "Aborted" none (some 5)).on_attach (some 5)).restoreTo).1
      = some 1 ∧
    (some 1 : Option Nat) ≠ some 5 := by
  refine ⟨rfl, by decide, rfl, rfl, by decide⟩

/-- C2 (corrected): the Intercept constructor ignores its restore_parser
(and no_abort) arguments and stores None in both attributes, and
attaching the flow captures nothing: after on_attach with any predecessor
the restore_parser is still None.  A successful abort therefore assigns
None to the connection, and the dispatcher-swap setter replaces None by
the session baseline: aborts unwind to the baseline dispatcher (unless
restore_parser was assigned externally after construction), not to the
dispatcher active just before the attach. -/
theorem gsb_C2_amended : ∀ (a b : String) (na : Option String) (rp old : Option Nat)
    (srv : Server) (cur : Option Nat),
    ((Intercept.init a b na rp).on_attach old).restoreTo = none ∧
    ((Intercept.init a b na rp).on_attach old).no_abort = none ∧
    ((Intercept.init a b na rp).on_attach old).huh a
      = ([Ev.sent b, Ev.assigned none], true) ∧
    (setParser srv cur none).1 = some srv.baseline := by
  intro a b na rp old srv cur
  refine ⟨rfl, rfl, ?_, ?_⟩
  · simp [Intercept.huh, Intercept.on_attach, Intercept.init, Intercept.do_abort, abortEvs]
  · cases cur <;> rfl

/-- C5 (confirmed): for every connection whose current dispatcher is some
P, assigning None runs P's detach hook, logs the fallback warning,
stores the session baseline as the connection's dispatcher, and runs the
baseline's attach hook with P as the predecessor; the stored dispatcher
is never None. -/
theorem gsb_C5 : ∀ (srv : Server) (P : Nat),
    setParser srv (some P) none
      = (some srv.baseline,
        [PEvent.on_detach P none, PEvent.warned, PEvent.on_attach srv.baseline (some P)]) ∧
    (setParser srv (some P) none).1 ≠ none := by
  intro srv P
  exact ⟨rfl, by simp [setParser]⟩

example : pyInt "10" = some 10 := by decide
example : pyInt " -2 " = some (-2) := by decide
example : pyInt "ban" = none := by decide
example : Menu.matchItem [itemTenGold] "10" = MenuResult.selected itemTenGold := by decide
example : Menu.matchItem demoItems "1" = MenuResult.selected appleItem := by decide
example : Menu.matchItem demoItems "$" = MenuResult.selected bananaItem := by decide
example : Menu.matchItem demoItems "ban" = MenuResult.selected bananaItem := by decide
example : menuTextMatch demoItems "ap" = MenuResult.multipleMatchesPath [appleItem, apricotItem] := by decide
example : Menu.matchItem demoItems "-1" = MenuResult.selected bananaItem := by decide
example : Menu.matchItem demoItems "AP" = MenuResult.multipleMatchesPath [appleItem, apricotItem] := by decide
example : (Menu.itemDecorator oneItemMenu "b" 1).1.items.map MenuItem.index = [1, 0] := by decide
example : (oneItemMenu.items.map MenuItem.index) = [1] := by decide
example : Menu.matchItem demoItems "" = MenuResult.noText := by decide
example : Menu.matchItem [] "$" = MenuResult.indexError := by decide

/-- Helper: every line produced by send_items is a plain notification. -/
theorem sendItemsEvs_sent (labels : List MenuLabel) (items : List MenuItem) :
    ∀ ev ∈ sendItemsEvs labels items, ∃ s, ev = Ev.sent s := by
  intro ev hev
  simp only [sendItemsEvs, List.mem_append, List.mem_filterMap, List.mem_bind,
    List.mem_cons] at hev
  rcases hev with ⟨lb, _, hif⟩ | ⟨i, _, hin⟩
  · by_cases h : lb.after = none
    · rw [if_pos h] at hif
      exact ⟨lb.text, (Option.some_inj.mp hif).symm⟩
    · rw [if_neg h] at hif
      exact absurd hif (Option.noConfusion)
  · rcases hin with heq | ⟨lb, _, hif⟩
    · exact ⟨i.as_string, heq⟩
    · by_cases h : lb.after = some i.fid
      · rw [if_pos h] at hif
        exact ⟨lb.text, (Option.some_inj.mp hif).symm⟩
      · rw [if_neg h] at hif
        exact absurd hif (Option.noConfusion)

/-- C6 counterexample: the claim says an out-of-range integer falls
through to the no-match path.  On the one-item menu whose label is
10 gold, the input 10 parses as the integer 10, index 9 is out of range,
and the except branch then prefix-matches the label 10 gold, selecting
the item instead of taking the no-match path. -/
theorem gsb_C6_counterexample :
    pyInt (pyLower "10") = some 10 ∧
    pyIndex [itemTenGold] ((10 : Int) - 1) = none ∧
    Menu.matchItem [itemTenGold] "10" = MenuResult.selected itemTenGold ∧
    Menu.matchItem [itemTenGold] "10" ≠ MenuResult.noMatchesPath := by
  refine ⟨by decide, by decide, by decide, by decide⟩

/-- C6 (corrected): Menu matching on non-empty input, lowercased.  The
dollar sign selects the last item; text parsing as an integer n selects
position n - 1 when n is positive and raw index n otherwise (negative
indices counting from the end); an out-of-range integer falls through to
the prefix-match branch (reaching the no-match hook only when no label
has the numeral as a prefix) and unparsable text goes to that branch
directly; in the branch, a unique case-insensitive label-prefix match is
selected, zero matches take the no-match path, and several matches take
the multiple-match path; at the dispatch level a selected item first has
restore_parser assigned and then its callback invoked, while the default
multiple-match hook only notifies - the connection stays in the menu. -/
theorem gsb_C6_amended :
    (∀ (items : List MenuItem) (text : String) (it : MenuItem),
      text ≠ "" → pyLower text = "$" → items.getLast? = some it →
      Menu.matchItem items text = MenuResult.selected it) ∧
    (∀ (items : List MenuItem) (text : String) (n : Int) (it : MenuItem),
      text ≠ "" → pyLower text ≠ "$" → pyInt (pyLower text) = some n → 0 < n →
      pyIndex items (n - 1) = some it →
      Menu.matchItem items text = MenuResult.selected it) ∧
    (∀ (items : List MenuItem) (text : String) (n : Int) (it : MenuItem),
      text ≠ "" → pyLower text ≠ "$" → pyInt (pyLower text) = some n → ¬ 0 < n →
      pyIndex items n = some it →
      Menu.matchItem items text = MenuResult.selected it) ∧
    (∀ (items : List MenuItem) (text : String) (n : Int),
      text ≠ "" → pyLower text ≠ "$" → pyInt (pyLower text) = some n →
      pyIndex items (if 0 < n then n - 1 else n) = none →
      Menu.matchItem items text = menuTextMatch items (pyLower text)) ∧
    (∀ (items : List MenuItem) (text : String),
      text ≠ "" → pyLower text ≠ "$" → pyInt (pyLower text) = none →
      Menu.matchItem items text = menuTextMatch items (pyLower text)) ∧
    (∀ (items : List MenuItem) (t : String) (it : MenuItem), t ≠ "" →
      labelMatches items t = [it] →
      menuTextMatch items t = MenuResult.selected it) ∧
    (∀ (items : List MenuItem) (t : String), t ≠ "" →
      labelMatches items t = [] →
      menuTextMatch items t = MenuResult.noMatchesPath) ∧
    (∀ (items : List MenuItem) (t : String) (it1 it2 : MenuItem)
        (more : List MenuItem), t ≠ "" →
      labelMatches items t = it1 :: it2 :: more →
      menuTextMatch items t = MenuResult.multipleMatchesPath (it1 :: it2 :: more)) ∧
    (∀ (m : Menu) (text : String) (it : MenuItem),
      text ≠ m.abort_command →
      Menu.matchItem m.items text = MenuResult.selected it →
      Menu.huh m text
        = Except.ok ([Ev.assigned m.restoreTo, Ev.itemCalled it.fid], true)) ∧
    (∀ (m : Menu) (text : String) (its : List MenuItem),
      text ≠ m.abort_command →
      Menu.matchItem m.items text = MenuResult.multipleMatchesPath its →
      m.hasMultipleMatchesHook = false → m.persistent = false →
      Menu.huh m text
        = Except.ok (Ev.sent "That matched multiple items:" ::
            (sendItemsEvs m.labels its ++ [Ev.sent m.prompt]), true) ∧
      ∀ (v : Option Nat) (out : List Ev × Bool),
        Menu.huh m text = Except.ok out → Ev.assigned v ∉ out.1) := by
  refine ⟨?_, ?_, ?_, ?_, ?_, ?_, ?_, ?_, ?_, ?_⟩
  · intro items text it hne hdollar hlast
    simp [Menu.matchItem, hne, hdollar, hlast]
  · intro items text n it hne hdollar hint hpos hidx
    simp [Menu.matchItem, hne, hdollar, hint, hpos, hidx]
  · intro items text n it hne hdollar hint hpos hidx
    simp [Menu.matchItem, hne, hdollar, hint, hpos, hidx]
  · intro items text n hne hdollar hint hidx
    by_cases hpos : 0 < n
    · rw [if_pos hpos] at hidx
      simp [Menu.matchItem, hne, hdollar, hint, hpos, hidx]
    · rw [if_neg hpos] at hidx
      simp [Menu.matchItem, hne, hdollar, hint, hpos, hidx]
  · intro items text hne hdollar hint
    simp [Menu.matchItem, hne, hdollar, hint]
  · intro items t it hne hm
    simp [menuTextMatch, hne, hm]
  · intro items t hne hm
    simp [menuTextMatch, hne, hm]
  · intro items t it1 it2 more hne hm
    simp [menuTextMatch, hne, hm]
  · intro m text it habort hmatch
    simp [Menu.huh, habort, hmatch]
  · intro m text its habort hmatch hhook hpers
    constructor
    · simp [Menu.huh, habort, hmatch, hhook, hpers]
    · intro v out hout hmem
      rw [show Menu.huh m text
          = Except.ok (Ev.sent "That matched multiple items:" ::
              (sendItemsEvs m.labels its ++ [Ev.sent m.prompt]), true) by
            simp [Menu.huh, habort, hmatch, hhook, hpers]] at hout
      have hout2 : out = (Ev.sent "That matched multiple items:" ::
          (sendItemsEvs m.labels its ++ [Ev.sent m.prompt]), true) :=
        (Except.ok.inj hout).symm
      subst hout2
      simp only [List.mem_cons, List.mem_append, List.mem_singleton] at hmem
      rcases hmem with h | h | h | h
      · exact Ev.noConfusion h
      · obtain ⟨s, hs⟩ := sendItemsEvs_sent m.labels its _ h
        exact Ev.noConfusion hs
      · exact Ev.noConfusion h
      · exact absurd h (List.not_mem_nil _)

/-- C6 amended witness: the specification example.  On the items Apple,
Apricot, Banana: input 1 selects Apple (position 0), the dollar sign
selects Banana, input ap reaches the multiple-match path with Apple and
Apricot, and input ban uniquely prefix-matches Banana. -/
theorem gsb_C6_amended_witness :
    Menu.matchItem demoItems "1" = MenuResult.selected appleItem ∧
    Menu.matchItem demoItems "$" = MenuResult.selected bananaItem ∧
    menuTextMatch demoItems "ap" = MenuResult.multipleMatchesPath [appleItem, apricotItem] ∧
    Menu.matchItem demoItems "ban" = MenuResult.selected bananaItem :=
  ⟨gsb_C6_amended.2.1 demoItems "1" 1 appleItem (by decide) (by decide) (by decide)
      (by decide) (by decide),
    gsb_C6_amended.1 demoItems "$" bananaItem (by decide) (by decide) (by decide),
    gsb_C6_amended.2.2.2.2.2.2.2.1 demoItems "ap" appleItem apricotItem []
      (by decide) (by decide),
    (gsb_C6_amended.2.2.2.2.1 demoItems "ban" (by decide) (by decide) (by decide)).trans
      (gsb_C6_amended.2.2.2.2.2.1 demoItems "ban" bananaItem (by decide) (by decide))⟩

/-- C9 (code bug): the claim says the display index is recomputed on
every change to the item list, including adding an item through the
item-registration decorator.  At construction the indices are indeed the
1-based positions, but the decorator appends the new item and then calls
the undefined method __attrs_post_init__, raising AttributeError: the
appended item keeps index 0 instead of receiving index 2. -/
theorem gsb_C9_bug :
    (oneItemMenu.items.map MenuItem.index = [1]) ∧
    (Menu.itemDecorator oneItemMenu "b" 1).2 = Except.error "AttributeError" ∧
    (Menu.itemDecorator oneItemMenu "b" 1).1.items.map MenuItem.index = [1, 0] ∧
    ([1, 0] : List Nat) ≠ [1, 2] := by
  refine ⟨by decide, rfl, by decide, by decide⟩

/-- C7 (confirmed): in single-line mode, for any Reader with an empty
buffer, a completion hook, and a prior dispatcher recorded in
restore_parser, the first received (non-abort, non-spell-check) line
becomes the buffer, the prior dispatcher is restored, and the completion
hook fires with that text; in multi-line mode the lines a, b followed by
the finish token yield the restore of the prior dispatcher and the
completion hook with the separator-joined buffer. -/
theorem gsb_C7 :
    (∀ (r : Reader) (line : String) (p : Nat),
      r.multiline = false → r.buffer = "" → r.hasDone = true →
      r.restoreTo = some p → r.after_line = none →
      line ≠ r.abort_command → line ≠ r.spell_check_command →
      Reader.huh r line
        = ({ r with buffer := line },
          [Ev.assigned (some p), Ev.doneCalled line], true)) ∧
    runLines multiReader ["a", "b", "."]
      = ({ multiReader with buffer := "a\nb" },
        [Ev.assigned (some 5), Ev.doneCalled "a\nb"]) := by
  constructor
  · intro r line p hml hbuf hdone hrest hafter habort hspell
    by_cases hl : line = ""
    · subst hl
      simp [Reader.huh, hafter, habort, hspell, hml, hbuf, hdone, hrest]
    · simp [Reader.huh, hafter, habort, hspell, hml, hbuf, hdone, hrest, hl]
  · decide

/-- C7 witness: the single-line reader receiving hello stores hello in
the buffer, restores dispatcher 5, and completes with hello. -/
theorem gsb_C7_witness :
    Reader.huh singleReader "hello"
      = ({ singleReader with buffer := "hello" },
        [Ev.assigned (some 5), Ev.doneCalled "hello"], true) :=
  gsb_C7.1 singleReader "hello" 5 rfl rfl rfl rfl rfl (by decide) (by decide)

/-- C8 (confirmed): for every YesOrNo and non-empty non-abort input, the
flow first assigns restore_parser back to the connection and only then
invokes a callback: the yes-callback when the input case-insensitively
starts with y, else the no-callback when present, else the abort flow
(aborted notice plus another restore assignment). -/
theorem gsb_C8 :
    (∀ (y : YesOrNo) (text : String),
      text ≠ "" → text ≠ y.abort_command →
      pyStartswith (pyLower text) "y" = true →
      YesOrNo.huh y text = ([Ev.assigned y.restoreTo, Ev.yesCalled], true)) ∧
    (∀ (y : YesOrNo) (text : String),
      text ≠ "" → text ≠ y.abort_command →
      pyStartswith (pyLower text) "y" = false → y.hasNo = true →
      YesOrNo.huh y text = ([Ev.assigned y.restoreTo, Ev.noCalled], true)) ∧
    (∀ (y : YesOrNo) (text : String),
      text ≠ "" → text ≠ y.abort_command →
      pyStartswith (pyLower text) "y" = false → y.hasNo = false → y.no_abort = none →
      YesOrNo.huh y text
        = ([Ev.assigned y.restoreTo, Ev.sent y.aborted, Ev.assigned y.restoreTo],
          true)) := by
  refine ⟨?_, ?_, ?_⟩
  · intro y text hne habort hy
    simp [YesOrNo.huh, habort, hne, hy]
  · intro y text hne habort hy hno
    simp [YesOrNo.huh, habort, hne, hy, hno]
  · intro y text hne habort hy hno hna
    simp [YesOrNo.huh, habort, hne, hy, hno, hna, abortEvs]

/-- C8 witness: on the concrete YesOrNo with prior dispatcher 5, the
input Yes please restores dispatcher 5 and then calls the yes-callback,
and the input nope restores dispatcher 5 and then calls the
no-callback. -/
theorem gsb_C8_witness :
    YesOrNo.huh demoYesOrNo "Yes please"
      = ([Ev.assigned (some 5), Ev.yesCalled], true) ∧
    YesOrNo.huh demoYesOrNo "nope"
      = ([Ev.assigned (some 5), Ev.noCalled], true) :=
  ⟨gsb_C8.1 demoYesOrNo "Yes please" (by decide) (by decide) (by decide),
    gsb_C8.2.1 demoYesOrNo "nope" (by decide) (by decide) (by decide) rfl⟩

/-- C10 (confirmed): for every YesOrNo whose abort command is non-empty
(as every constructed YesOrNo, whose abort command is the default token),
an empty input line is silently ignored: no event is produced - nothing
is sent, no callback runs, the dispatcher is untouched - and the line is
reported unhandled, so the prompt stays active. -/
theorem gsb_C10 : ∀ (y : YesOrNo), y.abort_command ≠ "" →
    YesOrNo.huh y "" = ([], false) := by
  intro y h
  rw [YesOrNo.huh, if_neg (fun he => h (Eq.symm he))]
  simp

/-- C10 witness: a YesOrNo built by the constructor ignores the empty
line. -/
theorem gsb_C10_witness :
    YesOrNo.huh (YesOrNo.init "Proceed?" false none) "" = ([], false) :=
  gsb_C10 (YesOrNo.init "Proceed?" false none) (by decide)
